import Mathlib

/-!
Verification of the Local AI Server Deployment Tool (`deploy.py`).

This file shallowly embeds the parts of `deploy.py` that the verified
properties are about:

* the hardware prober (`detect_gpus`, `detect_system`),
* the capability evaluator (the recommendation block of
  `print_system_report`),
* the manifest generator (`Installer.create_docker_compose`),
* the secrets-file step (`Installer.create_env_file`),
* the step runner (`Installer.confirm`, `Installer.run_full_install`),
* the service supervisor (`show_status` and the `status` branch of `main`),
* the WSL precheck (`Installer.is_wsl`).

Modelling conventions:

* Python strings manipulated by the prober are modelled as `List Char`
  (abbreviated `Str`), so that every string operation is a structurally
  recursive, kernel-computable function.  Strings that are only rendered
  (manifest text, report lines, secrets file) are modelled as Lean `String`.
* Python `float` values that are only stored (RAM sizes) are modelled as
  exact rationals (`Rat`); Python `round(x, 1)` is modelled as rational
  rounding to one decimal.  No verified property depends on float rounding.
* A Python exception that the source does not catch is modelled as the
  `Except.error` case of an `Except Str` result, carrying the exception
  name.
* Invocations of external tools are modelled as data supplied in an
  environment record: each tool invocation is a `CmdResult` (exit code and
  standard output); a subprocess invocation of a possibly-absent executable
  (list-form `subprocess.run`, which raises `FileNotFoundError` when the
  binary is missing) is an `Option` of its exit code.
-/

namespace Deploy

/-- Python `str` as a list of characters, for the parsing-heavy code. -/
abbrev Str := List Char

/-- Result of `run_command` (`subprocess.run` with `shell=True`):
an exit code and captured standard output. -/
structure CmdResult where
  returncode : Int
  stdout : Str
deriving DecidableEq, Repr

/-! ### String helpers (models of the Python `str` methods used) -/

/-- Python `str.split(sep)` for a one-character separator: splits at every
occurrence, keeping empty fields (`"".split(c) == [""]`). -/
def splitOnChar (sep : Char) : Str → List Str
  | [] => [[]]
  | c :: cs =>
    let rest := splitOnChar sep cs
    if c = sep then [] :: rest
    else
      match rest with
      | [] => [[c]]
      | r :: rs => (c :: r) :: rs

/-- Python `str.split()` with no separator: splits on whitespace runs and
drops empty fields. -/
def splitWsAux : Str → Str → List Str
  | [], acc => if acc.isEmpty then [] else [acc.reverse]
  | c :: cs, acc =>
    if c.isWhitespace then
      if acc.isEmpty then splitWsAux cs [] else acc.reverse :: splitWsAux cs []
    else splitWsAux cs (c :: acc)

/-- Python `str.split()` (whitespace split, no empty fields). -/
def splitWs (s : Str) : List Str := splitWsAux s []

/-- Fuel-driven worker for multi-character `str.split(sep)` (used by the
source for `line.split('release')`).  The fuel is at least the string
length plus one, so the exhausted-fuel case is never reached on the
arguments we pass. -/
def splitOnSeqAux (sep : Str) : Nat → Str → Str → List Str
  | _, [], acc => [acc.reverse]
  | 0, s, acc => [acc.reverse ++ s]
  | fuel + 1, c :: cs, acc =>
    if sep.isPrefixOf (c :: cs) then
      acc.reverse :: splitOnSeqAux sep fuel (List.drop sep.length (c :: cs)) []
    else splitOnSeqAux sep fuel cs (c :: acc)

/-- Python `str.split(sep)` for a non-empty multi-character separator. -/
def splitOnSeq (sep s : Str) : List Str := splitOnSeqAux sep (s.length + 1) s []

/-- Python `str.strip()` (whitespace from both ends). -/
def trimStr (s : Str) : Str :=
  ((s.dropWhile Char.isWhitespace).reverse.dropWhile Char.isWhitespace).reverse

/-- Python `str.strip('"')` (double quotes from both ends). -/
def stripQuotes (s : Str) : Str :=
  ((s.dropWhile (fun c => c = '"')).reverse.dropWhile (fun c => c = '"')).reverse

/-- Python `str.lower()` (the inputs in question are ASCII). -/
def toLowerStr (s : Str) : Str := s.map Char.toLower

/-- Python substring test `needle in hay`. -/
def isInfix (needle : Str) : Str → Bool
  | [] => needle.isEmpty
  | c :: cs => needle.isPrefixOf (c :: cs) || isInfix needle cs

/-- Digit-string to number (no sign, no spaces). -/
def parseDigits (s : Str) : Option Nat :=
  if s.isEmpty then none
  else if s.all Char.isDigit then
    some (s.foldl (fun n c => n * 10 + (c.toNat - 48)) 0)
  else none

/-- Python `int(s)` on an already-stripped decimal string (optionally
negative).  `none` models the `ValueError` raised on any other input. -/
def parsePyInt : Str → Option Int
  | '-' :: rest => (parseDigits rest).map (fun n => -(n : Int))
  | s => (parseDigits s).map Int.ofNat

/-- Python `int(float(s))` on an already-stripped non-negative decimal
literal (`"123"` or `"123.45"`, truncating the fractional part).  `none`
models the `ValueError` raised on any other input. -/
def parsePyFloatNat (s : Str) : Option Nat :=
  match splitOnChar '.' s with
  | [a] => parseDigits a
  | [a, b] =>
    if a.isEmpty then none
    else if a.all Char.isDigit && b.all Char.isDigit then parseDigits a
    else none
  | _ => none

/-! ### Data model -/

/-- `GPUInfo` dataclass. -/
structure GPUInfo where
  index : Int
  name : Str
  memory_total_mb : Nat
  memory_free_mb : Nat
  driver_version : Str
  cuda_version : Str
  compute_capability : Str
deriving DecidableEq, Repr

/-- `SystemInfo` dataclass (the hardware snapshot). -/
structure SystemInfo where
  os_name : Str
  os_version : Str
  cpu_model : Str
  cpu_cores : Nat
  ram_total_gb : Rat
  ram_available_gb : Rat
  gpus : List GPUInfo
  cuda_available : Bool
  docker_available : Bool
  nvidia_docker_available : Bool
deriving DecidableEq, Repr

/-- The environment a probe runs against: file contents (`none` when the
file is absent) and the results of the external tool invocations. -/
structure ProbeEnv where
  os_release : Option Str
  cpuinfo : Option Str
  meminfo : Option Str
  cpu_count : Option Nat
  gpu_query : CmdResult
  nvcc : CmdResult
  cc_query : Str → CmdResult
  docker : CmdResult
  nvidia_docker : CmdResult

/-! ### Hardware prober -/

/-- The CUDA-version scan of `detect_gpus` (lines 125-133): walk the `nvcc
--version` output, and on the first line whose lowercasing contains
`release` and whose split on the literal `release` has a second part, take
that part up to the first comma, stripped.  Lines that contain `release`
only in a different case fall through without a break, exactly as in the
source (the containment test lowercases, the split does not). -/
def findCudaVersionLines : List Str → Str
  | [] => "Unknown".toList
  | l :: ls =>
    if isInfix "release".toList (toLowerStr l) then
      let parts := splitOnSeq "release".toList l
      if 1 < parts.length then
        trimStr ((splitOnChar ',' (parts.getD 1 [])).getD 0 [])
      else findCudaVersionLines ls
    else findCudaVersionLines ls

/-- CUDA toolkit version from the `nvcc --version` invocation: `Unknown`
when the tool is absent (non-zero exit), else the release scan above. -/
def findCudaVersion (nvcc : CmdResult) : Str :=
  if nvcc.returncode = 0 then findCudaVersionLines (splitOnChar '\n' nvcc.stdout)
  else "Unknown".toList

/-- One line of the `nvidia-smi` CSV (lines 138-154): split on commas,
strip each field; a line with fewer than five fields is skipped (`ok
none`); otherwise the index is `int(parts[0])`, the memory sizes are
`int(float(parts[2]))` and `int(float(parts[3]))` — an unparsable numeric
field is the uncaught `ValueError` — and the compute capability comes from
one further per-device query, `Unknown` if that query fails. -/
def parseGpuLine (cc_query : Str → CmdResult) (cuda_version : Str) (line : Str) :
    Except Str (Option GPUInfo) :=
  let parts := (splitOnChar ',' line).map trimStr
  if 5 ≤ parts.length then
    match parsePyInt (parts.getD 0 []) with
    | none => .error "ValueError".toList
    | some idx =>
      match parsePyFloatNat (parts.getD 2 []) with
      | none => .error "ValueError".toList
      | some total =>
        match parsePyFloatNat (parts.getD 3 []) with
        | none => .error "ValueError".toList
        | some free =>
          let cc := cc_query (parts.getD 0 [])
          let compute_cap := if cc.returncode = 0 then trimStr cc.stdout else "Unknown".toList
          .ok (some { index := idx, name := parts.getD 1 [],
                      memory_total_mb := total, memory_free_mb := free,
                      driver_version := parts.getD 4 [],
                      cuda_version := cuda_version,
                      compute_capability := compute_cap })
  else .ok none

/-- `detect_gpus` (lines 111-156): an empty list when the base query fails;
otherwise parse each non-blank line of the stripped output, in order. -/
def detectGpus (env : ProbeEnv) : Except Str (List GPUInfo) :=
  if env.gpu_query.returncode = 0 then
    let cuda_version := findCudaVersion env.nvcc
    (splitOnChar '\n' (trimStr env.gpu_query.stdout)).foldlM
      (fun acc line =>
        if (trimStr line).isEmpty then .ok acc
        else
          match parseGpuLine env.cc_query cuda_version line with
          | .error e => .error e
          | .ok none => .ok acc
          | .ok (some g) => .ok (acc ++ [g]))
      []
  else .ok []

/-- OS-release parsing of `detect_system` (lines 166-172): fold over the
lines, taking `NAME=` and `VERSION_ID=` values (stripped of whitespace and
double quotes), defaults `Unknown`. -/
def parseOsRelease (content : Str) : Str × Str :=
  (splitOnChar '\n' content).foldl
    (fun acc line =>
      if "NAME=".toList.isPrefixOf line then
        (stripQuotes (trimStr ((splitOnChar '=' line).getD 1 [])), acc.2)
      else if "VERSION_ID=".toList.isPrefixOf line then
        (acc.1, stripQuotes (trimStr ((splitOnChar '=' line).getD 1 [])))
      else acc)
    ("Unknown".toList, "Unknown".toList)

/-- CPU-model parsing of `detect_system` (lines 178-183): the first
`model name` line, split on `:`, second field stripped.  A matching line
without a colon is the uncaught `IndexError`. -/
def parseCpuModel (content : Str) : Except Str Str :=
  match (splitOnChar '\n' content).find? (fun l => "model name".toList.isPrefixOf l) with
  | none => .ok "Unknown".toList
  | some line =>
    match splitOnChar ':' line with
    | _ :: second :: _ => .ok (trimStr second)
    | _ => .error "IndexError".toList

/-- RAM parsing of `detect_system` (lines 189-195): fold over the lines,
reading the second whitespace-separated token of the `MemTotal:` and
`MemAvailable:` lines as kB and converting to GB.  A matching line with a
missing or non-numeric second token is the uncaught
`IndexError`/`ValueError`. -/
def parseMeminfo (content : Str) : Except Str (Rat × Rat) :=
  (splitOnChar '\n' content).foldlM
    (fun (acc : Rat × Rat) line =>
      if "MemTotal:".toList.isPrefixOf line then
        match splitWs line with
        | _ :: tok :: _ =>
          match parsePyInt tok with
          | some kb => .ok (((kb : Rat) / 1024 / 1024), acc.2)
          | none => .error "ValueError".toList
        | _ => .error "IndexError".toList
      else if "MemAvailable:".toList.isPrefixOf line then
        match splitWs line with
        | _ :: tok :: _ =>
          match parsePyInt tok with
          | some kb => .ok (acc.1, ((kb : Rat) / 1024 / 1024))
          | none => .error "ValueError".toList
        | _ => .error "IndexError".toList
      else .ok acc)
    ((0 : Rat), (0 : Rat))

/-- Python `round(x, 1)` modelled as rational rounding to one decimal. -/
def round1 (x : Rat) : Rat := (round (x * 10) : Int) / 10

/-- `detect_system` (lines 159-219): assemble the snapshot; any uncaught
exception from a parser propagates and aborts the probe. -/
def detectSystem (env : ProbeEnv) : Except Str SystemInfo :=
  let osPair :=
    match env.os_release with
    | none => ("Unknown".toList, "Unknown".toList)
    | some c => parseOsRelease c
  match
    (match env.cpuinfo with
     | none => .ok "Unknown".toList
     | some c => parseCpuModel c : Except Str Str) with
  | .error e => .error e
  | .ok cpu_model =>
    match
      (match env.meminfo with
       | none => .ok ((0 : Rat), (0 : Rat))
       | some c => parseMeminfo c : Except Str (Rat × Rat)) with
    | .error e => .error e
    | .ok ram =>
      match detectGpus env with
      | .error e => .error e
      | .ok gpus =>
        .ok { os_name := osPair.1, os_version := osPair.2,
              cpu_model := cpu_model,
              cpu_cores := env.cpu_count.getD 0,
              ram_total_gb := round1 ram.1,
              ram_available_gb := round1 ram.2,
              gpus := gpus,
              cuda_available := decide (0 < gpus.length),
              docker_available := env.docker.returncode == 0,
              nvidia_docker_available := env.nvidia_docker.returncode == 0 }

/-! ### Capability evaluator (the recommendation block of `print_system_report`) -/

/-- Combined VRAM of the snapshot, `sum(g.memory_total_mb for g in info.gpus)`
(lines 237 and 255). -/
def totalVramMb (info : SystemInfo) : Nat :=
  (info.gpus.map (fun g => g.memory_total_mb)).sum

/-- Fallback GPU for the (unreachable) head access on an empty list; the
single-GPU branch below is guarded by `length = 1`. -/
def dummyGpu : GPUInfo :=
  { index := 0, name := [], memory_total_mb := 0, memory_free_mb := 0,
    driver_version := [], cuda_version := [], compute_capability := [] }

/-- The model-recommendation lines printed by `print_system_report`
(lines 254-271), as the exact strings the source prints.  Two or more
GPUs: ≥ 45000 MB combined → the 70B recommendation (with the literal
`tensor_parallel_size=2`), else ≥ 24000 MB → the 32B recommendation, else
nothing.  Exactly one GPU: thresholds 30000 / 20000 MB on that GPU's total
memory.  No GPUs: nothing. -/
def recommendationLines (info : SystemInfo) : List String :=
  if 2 ≤ info.gpus.length then
    if 45000 ≤ totalVramMb info then
      ["Sufficient VRAM for 70B model (4-bit quantized)",
       "   Recommended: Llama-3.3-70B-AWQ with tensor_parallel_size=2"]
    else if 24000 ≤ totalVramMb info then
      ["Limited VRAM - recommend 32B or smaller model",
       "   Recommended: Qwen3-32B-Instruct or Gemma-3-27B"]
    else []
  else if info.gpus.length = 1 then
    let g := info.gpus.headD dummyGpu
    if 30000 ≤ g.memory_total_mb then
      ["RTX 5090 detected - excellent for 32B models",
       "   Recommended: Qwen3-32B-Instruct or Gemma-3-27B"]
    else if 20000 ≤ g.memory_total_mb then
      ["Single GPU with good VRAM",
       "   Recommended: Qwen3-14B-Instruct or Gemma-3-12B"]
    else
      ["Limited VRAM - recommend smaller model",
       "   Recommended: Qwen3-8B-Instruct"]
  else []

/-- The no-accelerator notice of `print_system_report` (lines 246-247):
printed exactly when the GPU list is empty. -/
def gpuSectionNotice (info : SystemInfo) : Option String :=
  if info.gpus.isEmpty then some "⚠️  No NVIDIA GPUs detected!" else none

/-! ### Configuration (`DEFAULT_CONFIG` and the config file) -/

/-- The `llm` section.  `tensor_parallel_size` is an `Option` because the
source reads it with `dict.get(..., 2)`; all other keys are read by direct
indexing.  `gpu_memory_utilization` is a float that is only ever
interpolated into text, so it is carried as its decimal rendering. -/
structure LLMConfig where
  model : String
  backend : String
  tensor_parallel_size : Option Nat
  max_model_len : Nat
  gpu_memory_utilization : String
  quantization : String
deriving DecidableEq, Repr

/-- The `embedding` section. -/
structure EmbeddingConfig where
  model : String
  device : String
deriving DecidableEq, Repr

/-- The `server` section. -/
structure ServerConfig where
  vllm_host : String
  vllm_port : Nat
  anythingllm_port : Nat
deriving DecidableEq, Repr

/-- The `paths` section. -/
structure PathsConfig where
  base_dir : String
  models_dir : String
  data_dir : String
deriving DecidableEq, Repr

/-- The configuration document (`config.json`). -/
structure DeployConfig where
  llm : LLMConfig
  embedding : EmbeddingConfig
  server : ServerConfig
  paths : PathsConfig
deriving DecidableEq, Repr

/-- `BASE_DIR = Path.home() / ".local-ai-server"`, as a function of the
home directory. -/
def BASE_DIR (home : String) : String := home ++ "/.local-ai-server"

/-- `MODELS_DIR = BASE_DIR / "models"`. -/
def MODELS_DIR (home : String) : String := BASE_DIR home ++ "/models"

/-- `DATA_DIR = BASE_DIR / "data"`. -/
def DATA_DIR (home : String) : String := BASE_DIR home ++ "/data"

/-- `DEFAULT_CONFIG` (lines 43-66). -/
def DEFAULT_CONFIG (home : String) : DeployConfig :=
  { llm := { model := "Qwen/Qwen3-32B-Instruct", backend := "vllm",
             tensor_parallel_size := some 1, max_model_len := 4096,
             gpu_memory_utilization := "0.85", quantization := "awq" },
    embedding := { model := "BAAI/bge-large-en-v1.5", device := "cpu" },
    server := { vllm_host := "0.0.0.0", vllm_port := 8000, anythingllm_port := 3001 },
    paths := { base_dir := BASE_DIR home, models_dir := MODELS_DIR home,
               data_dir := DATA_DIR home } }

/-! ### Manifest generator (`Installer.create_docker_compose`) -/

/-- The tensor-parallel degree computed at lines 477-480:
`config["llm"].get("tensor_parallel_size", 2)`, then clamped with
`min(·, len(system_info.gpus))` when a snapshot is available. -/
def computeTensorParallel (config : DeployConfig) (system_info : Option SystemInfo) : Nat :=
  let tensor_parallel := config.llm.tensor_parallel_size.getD 2
  match system_info with
  | none => tensor_parallel
  | some info => min tensor_parallel info.gpus.length

/-- The `docker_compose` f-string of `create_docker_compose`
(lines 482-556), as a function of the home directory, the loaded config,
and the already-computed tensor-parallel degree. -/
def composeText (home : String) (config : DeployConfig) (tensor_parallel : Nat) : String :=
  "version: '3.8'\n\nservices:\n  # vLLM - LLM Inference Server with Multi-GPU support\n  vllm:\n    image: vllm/vllm-openai:latest\n    container_name: local-ai-vllm\n    runtime: nvidia\n    environment:\n      - NVIDIA_VISIBLE_DEVICES=all\n      - HF_TOKEN=$\x7bHF_TOKEN:-\x7d\n    volumes:\n      - "
  ++ MODELS_DIR home
  ++ ":/root/.cache/huggingface\n      - /dev/shm:/dev/shm\n    ports:\n      - \""
  ++ toString config.server.vllm_port
  ++ ":8000\"\n    command: >\n      --model "
  ++ config.llm.model
  ++ "\n      --tensor-parallel-size "
  ++ toString tensor_parallel
  ++ "\n      --max-model-len "
  ++ toString config.llm.max_model_len
  ++ "\n      --gpu-memory-utilization "
  ++ config.llm.gpu_memory_utilization
  ++ "\n      --dtype auto\n      --trust-remote-code\n    deploy:\n      resources:\n        reservations:\n          devices:\n            - driver: nvidia\n              count: all\n              capabilities: [gpu]\n    healthcheck:\n      test: [\"CMD\", \"curl\", \"-f\", \"http://localhost:8000/health\"]\n      interval: 30s\n      timeout: 10s\n      retries: 5\n      start_period: 300s\n    restart: unless-stopped\n\n  # AnythingLLM - RAG + Web UI\n  anythingllm:\n    image: mintplexlabs/anythingllm:latest\n    container_name: local-ai-anythingllm\n    volumes:\n      - "
  ++ DATA_DIR home
  ++ "/anythingllm:/app/server/storage\n      - "
  ++ DATA_DIR home
  ++ "/documents:/app/server/storage/documents\n    ports:\n      - \""
  ++ toString config.server.anythingllm_port
  ++ ":3001\"\n    environment:\n      - STORAGE_DIR=/app/server/storage\n      - LLM_PROVIDER=generic-openai\n      - GENERIC_OPEN_AI_BASE_PATH=http://vllm:8000/v1\n      - GENERIC_OPEN_AI_MODEL_PREF="
  ++ (config.llm.model.splitOn "/").getLastD ""
  ++ "\n      - GENERIC_OPEN_AI_MODEL_TOKEN_LIMIT="
  ++ toString config.llm.max_model_len
  ++ "\n      - EMBEDDING_ENGINE=native\n      - VECTOR_DB=lancedb\n      - TTS_PROVIDER=native\n      - PASSWORDLESS_AUTH=false\n    depends_on:\n      vllm:\n        condition: service_healthy\n    healthcheck:\n      test: [\"CMD\", \"curl\", \"-f\", \"http://localhost:3001/api/ping\"]\n      interval: 30s\n      timeout: 10s\n      retries: 3\n    restart: unless-stopped\n\nvolumes:\n  vllm-models:\n  anythingllm-storage:\n\nnetworks:\n  default:\n    name: local-ai-network\n"

/-- `create_docker_compose` as a text renderer: load the config (done by
the caller below), compute the clamped tensor-parallel degree, interpolate. -/
def createDockerCompose (home : String) (config : DeployConfig)
    (system_info : Option SystemInfo) : String :=
  composeText home config (computeTensorParallel config system_info)

/-! ### Secrets file (`Installer.create_env_file`) -/

/-- The `env_content` f-string (lines 573-585); `token` stands for
`os.urandom(16).hex()`. -/
def envContent (token : String) : String :=
  "# Local AI Server Environment Variables\n# Add your HuggingFace token here for gated models (e.g., Llama-2)\nHF_TOKEN=\n\n# Auto-generated vLLM API Key (do not share!)\nVLLM_API_KEY="
  ++ token
  ++ "\n\n# Optional: Anthropic API key for fallback\nANTHROPIC_API_KEY=\n\n# Optional: OpenAI API key for fallback\nOPENAI_API_KEY=\n"

/-- `create_env_file` (lines 565-592) as a transition on the secrets file:
given the current file content (`none` when absent) and a fresh random
token, return the resulting content and the step's boolean result.  An
existing file is returned untouched with success; only an absent file is
written. -/
def create_env_file (existing : Option String) (token : String) : Option String × Bool :=
  match existing with
  | some c => (some c, true)
  | none => (some (envContent token), true)

/-! ### The artifact-producing install steps as a filesystem transition -/

/-- The slice of the filesystem the artifact steps touch: the config file,
the rendered manifest, and the secrets file. -/
structure FS where
  config : Option DeployConfig
  manifest : Option String
  env_file : Option String
deriving DecidableEq, Repr

/-- `setup_directories` (lines 325-337), restricted to its config-file
effect: write `DEFAULT_CONFIG` only when no config file exists. -/
def setupDirectoriesStep (home : String) (fs : FS) : FS :=
  if fs.config.isSome then fs else { fs with config := some (DEFAULT_CONFIG home) }

/-- `create_docker_compose` (lines 467-563) as a filesystem step: load the
config file if present (else `DEFAULT_CONFIG`), render, and overwrite the
manifest. -/
def createDockerComposeStep (home : String) (fs : FS) (system_info : Option SystemInfo) : FS :=
  let config := fs.config.getD (DEFAULT_CONFIG home)
  { fs with manifest := some (createDockerCompose home config system_info) }

/-- `create_env_file` as a filesystem step. -/
def createEnvFileStep (fs : FS) (token : String) : FS :=
  { fs with env_file := (create_env_file fs.env_file token).1 }

/-- The artifact-producing portion of one `run_full_install` pass, in the
source's fixed step order: directories (config) → manifest → secrets.
`system_info` is the snapshot `detect_system` took at the start of the
run; `token` is the random token this run would use if it had to create
the secrets file. -/
def installArtifacts (home : String) (fs : FS) (system_info : Option SystemInfo)
    (token : String) : FS :=
  createEnvFileStep (createDockerComposeStep home (setupDirectoriesStep home fs) system_info) token

/-! ### Step runner (`Installer.confirm`, `Installer.run_full_install`) -/

/-- `Installer.confirm` (lines 299-309): in auto mode the default is
returned unconditionally; interactively the (stripped, lowered) response
is read, the empty answer means the default, and only `y`/`yes` mean yes. -/
def confirm (auto_mode : Bool) (defaultAns : Bool) (input : String) : Bool :=
  if auto_mode then defaultAns
  else
    let response := input.trim.toLower
    if response = "" then defaultAns
    else response == "y" || response == "yes"

/-- What one install step's function call came to: returned `True` (or any
non-`False` value), returned `False`, or raised an exception (caught by
the runner's `except` clause). -/
inductive StepOutcome where
  | ok
  | failed
  | raised
deriving DecidableEq, Repr

/-- The step loop of `run_full_install` (lines 687-698): a step that
returns `False` or raises triggers a `Continue anyway?` confirmation
(default yes); a negative answer returns `False` immediately, otherwise
the loop proceeds.  Returns how many steps were attempted and the loop's
result (`True` once every step has been visited).  `inputs` is the stream
of interactive answers; auto mode consumes none. -/
def runStepsLoop (auto_mode : Bool) : List StepOutcome → List String → Nat × Bool
  | [], _ => (0, true)
  | outcome :: rest, inputs =>
    match outcome with
    | .ok =>
      let r := runStepsLoop auto_mode rest inputs
      (r.1 + 1, r.2)
    | _ =>
      if confirm auto_mode true (inputs.headD "") then
        let r := runStepsLoop auto_mode rest (if auto_mode then inputs else inputs.drop 1)
        (r.1 + 1, r.2)
      else (1, false)

/-- `run_full_install` (lines 664-729), abstracted over what each step's
call does: the initial `Proceed with installation?` confirmation (default
yes), then the step loop.  Returns the number of steps attempted and the
overall result. -/
def runFullInstall (auto_mode : Bool) (outcomes : List StepOutcome)
    (inputs : List String) : Nat × Bool :=
  if confirm auto_mode true (inputs.headD "") then
    runStepsLoop auto_mode outcomes (if auto_mode then inputs else inputs.drop 1)
  else (0, false)

/-! ### Service supervisor (`show_status` and the `status` branch of `main`) -/

/-- The environment a `status` invocation sees.  The two table commands
are list-form `subprocess.run` calls, so an absent executable raises
`FileNotFoundError` (modelled by `none`); their exit codes are otherwise
ignored.  The two health probes sit in bare `try/except` blocks, so each
is just up (`true`) or down (`false`, covering refusal and timeout). -/
structure StatusEnv where
  docker_ps : Option Int
  nvidia_smi : Option Int
  vllm_probe : Bool
  anythingllm_probe : Bool
deriving DecidableEq, Repr

/-- `show_status` (lines 754-778): print the container table, the GPU
table, then the two probe results; a missing executable for either table
command is an uncaught `FileNotFoundError`. -/
def showStatus (env : StatusEnv) : Except String (List String) :=
  match env.docker_ps with
  | none => .error "FileNotFoundError"
  | some _ =>
    match env.nvidia_smi with
    | none => .error "FileNotFoundError"
    | some _ =>
      .ok ["=== Container Status ===",
           "=== GPU Usage ===",
           "=== Service Health ===",
           if env.vllm_probe then "✅ vLLM: Running" else "❌ vLLM: Not responding",
           if env.anythingllm_probe then "✅ AnythingLLM: Running"
           else "❌ AnythingLLM: Not responding"]

/-- The `status` branch of `main` (lines 850-854): exit 1 with a message
when the base directory is absent; otherwise run `show_status` and fall
off the end of `main` (exit 0) — unless `show_status` raised, in which
case the interpreter exits 1. -/
def statusCommand (base_dir_exists : Bool) (env : StatusEnv) : Nat × List String :=
  if base_dir_exists then
    match showStatus env with
    | .error e => (1, [e])
    | .ok msgs => (0, msgs)
  else (1, ["❌ Not installed."])

/-! ### WSL precheck (`Installer.is_wsl`) -/

/-- A Python file handle: content plus read position; `read()` returns
everything from the position and leaves the handle at end-of-file. -/
structure FileHandle where
  content : Str
  pos : Nat
deriving DecidableEq, Repr

/-- `f.read()`. -/
def FileHandle.readAll (h : FileHandle) : Str × FileHandle :=
  (h.content.drop h.pos, { h with pos := h.content.length })

/-- `Installer.is_wsl` (lines 339-345): open `/proc/version` (`none` when
absent, the caught `FileNotFoundError` → `False`) and evaluate
`"microsoft" in f.read().lower() or "wsl" in f.read().lower()` — two
separate `read()` calls on the same handle. -/
def is_wsl (proc_version : Option Str) : Bool :=
  match proc_version with
  | none => false
  | some content =>
    let h0 : FileHandle := { content := content, pos := 0 }
    let r1 := h0.readAll
    let r2 := r1.2.readAll
    isInfix "microsoft".toList (toLowerStr r1.1) || isInfix "wsl".toList (toLowerStr r2.1)

/-! ### Concrete fixtures (inputs used by witnesses and counterexamples) -/

/-- A failed per-device compute-capability query. -/
def ccFail : Str → CmdResult := fun _ => ⟨1, []⟩

/-- A GPU descriptor as `detect_gpus` builds it from a CSV line
`"{i}, Fake GPU, {total}, {free}, 535"` when `nvcc` and the
compute-capability query fail. -/
def mkGpu (i : Int) (total free : Nat) : GPUInfo :=
  { index := i, name := "Fake GPU".toList, memory_total_mb := total,
    memory_free_mb := free, driver_version := "535".toList,
    cuda_version := "Unknown".toList, compute_capability := "Unknown".toList }

/-- A bare environment: no readable files, every tool absent or failing. -/
def envNoGpu : ProbeEnv :=
  { os_release := none, cpuinfo := none, meminfo := none, cpu_count := none,
    gpu_query := ⟨1, []⟩, nvcc := ⟨1, []⟩, cc_query := ccFail,
    docker := ⟨127, []⟩, nvidia_docker := ⟨127, []⟩ }

/-- The snapshot the probe produces on `envNoGpu`. -/
def snapNoGpu : SystemInfo :=
  { os_name := "Unknown".toList, os_version := "Unknown".toList,
    cpu_model := "Unknown".toList, cpu_cores := 0,
    ram_total_gb := 0, ram_available_gb := 0, gpus := [],
    cuda_available := false, docker_available := false,
    nvidia_docker_available := false }

/-- A GPU query whose single CSV line reports more free than total VRAM
(100 MB total, 200 MB free). -/
def envFreeGtTotal : ProbeEnv :=
  { envNoGpu with gpu_query := ⟨0, "0, Fake GPU, 100, 200, 535".toList⟩ }

/-- A GPU query whose single CSV line has five fields but a non-numeric
total-memory field. -/
def envMalformed : ProbeEnv :=
  { envNoGpu with gpu_query := ⟨0, "0, Fake GPU, banana, 0, 535".toList⟩ }

/-- A snapshot with three 16000 MB GPUs (48000 MB combined). -/
def sys3Gpus : SystemInfo :=
  { snapNoGpu with gpus := [mkGpu 0 16000 16000, mkGpu 1 16000 16000, mkGpu 2 16000 16000],
                   cuda_available := true }

/-- A snapshot with two 24576 MB GPUs (the spec's 2 × 24 GB machine). -/
def sys2Gpus : SystemInfo :=
  { snapNoGpu with gpus := [mkGpu 0 24576 24576, mkGpu 1 24576 24576],
                   cuda_available := true }

/-- Python substring test `needle in hay` on rendered strings. -/
def strContains (hay needle : String) : Bool := isInfix needle.toList hay.toList

/-! ### Theorems -/

/-- C1 (counterexample): with the default configuration (configured degree
1) and a snapshot with zero GPUs, the degree the manifest generator
renders is `min(1, 0) = 0`, not the `1` the claim requires in the
zero-GPU case. -/
theorem c1_counterexample :
    computeTensorParallel (DEFAULT_CONFIG "/home/user") (some snapNoGpu) = 0 ∧ (0 : Nat) ≠ 1 := by
  constructor
  · decide
  · decide

/-- C1 (amended): for every configured degree `T` and snapshot with `G`
detected GPUs, the manifest text rendered by manifest generation is the
compose template instantiated at degree `min(T, G)` when `G ≥ 1` and at
degree `0` (not `1`) when `G = 0`; the manifest is generated in every
case. -/
theorem c1_theorem (home : String) (config : DeployConfig) (info : SystemInfo) :
    createDockerCompose home config (some info) =
      composeText home config
        (if 1 ≤ info.gpus.length then
          min (config.llm.tensor_parallel_size.getD 2) info.gpus.length
        else 0) := by
  have h : (if 1 ≤ info.gpus.length then
        min (config.llm.tensor_parallel_size.getD 2) info.gpus.length
      else 0) = min (config.llm.tensor_parallel_size.getD 2) info.gpus.length := by
    split
    · rfl
    · omega
  rw [h]
  rfl

/-- C2 (counterexample): on a vendor-tool output whose line reports total
100 MB and free 200 MB, the prober returns a descriptor with free VRAM
strictly greater than total VRAM — no clamping happens. -/
theorem c2_counterexample :
    detectGpus envFreeGtTotal = .ok [mkGpu 0 100 200] ∧
    ¬ ((mkGpu 0 100 200).memory_free_mb ≤ (mkGpu 0 100 200).memory_total_mb) := by
  constructor
  · rfl
  · decide

/-- C2 (amended): every descriptor the prober builds carries the total and
free VRAM fields of its CSV line verbatim (fields 2 and 3 as parsed), so
free ≤ total holds exactly when the vendor tool reports it; the prober
performs no clamping. -/
theorem c2_theorem (cc_query : Str → CmdResult) (cuda_version : Str) (line : Str)
    (g : GPUInfo) (h : parseGpuLine cc_query cuda_version line = .ok (some g)) :
    parsePyFloatNat (((splitOnChar ',' line).map trimStr).getD 2 []) = some g.memory_total_mb ∧
    parsePyFloatNat (((splitOnChar ',' line).map trimStr).getD 3 []) = some g.memory_free_mb := by
  unfold parseGpuLine at h
  dsimp only at h
  split at h
  · split at h <;> try simp_all
    split at h <;> try simp_all
    split at h <;> try simp_all
    rw [← h]
    simp_all
  · simp_all

/-- C2 (witness): the amended theorem applied to a well-formed CSV line
with total 100 MB and free 50 MB. -/
theorem c2_witness :
    parsePyFloatNat (((splitOnChar ',' "0, Fake GPU, 100, 50, 535".toList).map trimStr).getD 2 [])
      = some (mkGpu 0 100 50).memory_total_mb ∧
    parsePyFloatNat (((splitOnChar ',' "0, Fake GPU, 100, 50, 535".toList).map trimStr).getD 3 [])
      = some (mkGpu 0 100 50).memory_free_mb :=
  c2_theorem ccFail "Unknown".toList "0, Fake GPU, 100, 50, 535".toList (mkGpu 0 100 50) (by rfl)

/-- C3 (counterexample): a snapshot with three GPUs and 48000 MB combined
VRAM gets the 70B recommendation with the literal advice
`tensor_parallel_size=2`, not degree 3 = the GPU count the claim
requires. -/
theorem c3_counterexample :
    recommendationLines sys3Gpus =
      ["Sufficient VRAM for 70B model (4-bit quantized)",
       "   Recommended: Llama-3.3-70B-AWQ with tensor_parallel_size=2"] ∧
    sys3Gpus.gpus.length = 3 ∧
    strContains "   Recommended: Llama-3.3-70B-AWQ with tensor_parallel_size=2"
      "tensor_parallel_size=3" = false ∧
    strContains "   Recommended: Llama-3.3-70B-AWQ with tensor_parallel_size=2"
      "tensor_parallel_size=2" = true := by
  refine ⟨by decide, by decide, by decide, by decide⟩

/-- C3 (amended): for every snapshot with at least 2 GPUs and at least
45000 MB combined VRAM, the evaluator recommends the ~70B-class quantized
model with the fixed advised tensor-parallel degree 2, regardless of the
GPU count (which coincides with the GPU count only when there are exactly
2 GPUs). -/
theorem c3_theorem (info : SystemInfo) (h2 : 2 ≤ info.gpus.length)
    (h45 : 45000 ≤ totalVramMb info) :
    recommendationLines info =
      ["Sufficient VRAM for 70B model (4-bit quantized)",
       "   Recommended: Llama-3.3-70B-AWQ with tensor_parallel_size=2"] := by
  unfold recommendationLines
  rw [if_pos h2, if_pos h45]

/-- C3 (witness): the amended theorem applied to the 2 × 24576 MB
snapshot. -/
theorem c3_witness :
    2 ≤ sys2Gpus.gpus.length ∧ 45000 ≤ totalVramMb sys2Gpus ∧
    recommendationLines sys2Gpus =
      ["Sufficient VRAM for 70B model (4-bit quantized)",
       "   Recommended: Llama-3.3-70B-AWQ with tensor_parallel_size=2"] :=
  ⟨by decide, by decide, c3_theorem sys2Gpus (by decide) (by decide)⟩

/-- C4 (counterexample): on a successful vendor-tool invocation whose CSV
line has five fields but a non-numeric memory field, the probe raises an
unhandled `ValueError` instead of returning a snapshot. -/
theorem c4_counterexample :
    detectSystem envMalformed = .error "ValueError".toList := by rfl

/-- C4 (amended): the probe returns a snapshot without raising whenever
the key files are absent and the GPU base query fails (tool missing or
non-zero exit): each such gap degrades only its own field to its sentinel
("Unknown", 0, 0.0, empty list).  Malformed vendor-tool output, however,
can raise (see the counterexample). -/
theorem c4_theorem (env : ProbeEnv) (h1 : env.os_release = none) (h2 : env.cpuinfo = none)
    (h3 : env.meminfo = none) (h4 : env.gpu_query.returncode ≠ 0) :
    detectSystem env = .ok
      { os_name := "Unknown".toList, os_version := "Unknown".toList,
        cpu_model := "Unknown".toList, cpu_cores := env.cpu_count.getD 0,
        ram_total_gb := 0, ram_available_gb := 0, gpus := [],
        cuda_available := false,
        docker_available := env.docker.returncode == 0,
        nvidia_docker_available := env.nvidia_docker.returncode == 0 } := by
  unfold detectSystem detectGpus
  rw [h1, h2, h3]
  simp [h4, round1]

/-- C4 (witness): the amended theorem applied to the bare environment. -/
theorem c4_witness :
    envNoGpu.os_release = none ∧ envNoGpu.cpuinfo = none ∧ envNoGpu.meminfo = none ∧
    envNoGpu.gpu_query.returncode ≠ 0 ∧
    detectSystem envNoGpu = .ok snapNoGpu :=
  ⟨rfl, rfl, rfl, by decide, c4_theorem envNoGpu rfl rfl rfl (by decide)⟩

/-- C5: every snapshot the probe returns has `cuda_available` true exactly
when its GPU list is non-empty, and on an empty GPU list the report emits
the no-accelerator notice and no model recommendation. -/
theorem c5_theorem (env : ProbeEnv) (s : SystemInfo) (h : detectSystem env = .ok s) :
    (s.cuda_available = true ↔ s.gpus ≠ []) ∧
    (s.gpus = [] →
      recommendationLines s = [] ∧
      gpuSectionNotice s = some "⚠️  No NVIDIA GPUs detected!") := by
  unfold detectSystem at h
  dsimp only at h
  repeat' split at h
  all_goals
    first
    | exact Except.noConfusion h
    | (rw [Except.ok.injEq] at h
       subst h
       refine ⟨by simp [Nat.pos_iff_ne_zero, List.length_eq_zero], fun hg => ?_⟩
       dsimp only at hg
       subst hg
       exact ⟨by simp [recommendationLines], by simp [gpuSectionNotice]⟩)

/-- C5 (witness): the theorem applied to the probe of the bare
environment, whose snapshot has no GPUs. -/
theorem c5_witness :
    (snapNoGpu.cuda_available = true ↔ snapNoGpu.gpus ≠ []) ∧
    (snapNoGpu.gpus = [] →
      recommendationLines snapNoGpu = [] ∧
      gpuSectionNotice snapNoGpu = some "⚠️  No NVIDIA GPUs detected!") :=
  c5_theorem envNoGpu snapNoGpu
    (by simp [detectSystem, detectGpus, envNoGpu, snapNoGpu, round1])

/-- C6: when a secrets file already exists its content is preserved
byte-for-byte and the step reports success (the given token is discarded);
a token is written only when no secrets file is present. -/
theorem c6_theorem (c token token2 : String) :
    create_env_file (some c) token = (some c, true) ∧
    create_env_file none token2 = (some (envContent token2), true) :=
  ⟨rfl, rfl⟩

/-- C7: two install passes over the same snapshot produce the same
manifest bytes (the second pass re-renders from the configuration the
first pass persisted), the second pass leaves the secrets file of the
first pass untouched, and the first pass always leaves a secrets file. -/
theorem c7_theorem (home : String) (fs : FS) (system_info : Option SystemInfo)
    (t1 t2 : String) :
    (installArtifacts home (installArtifacts home fs system_info t1) system_info t2).manifest
      = (installArtifacts home fs system_info t1).manifest ∧
    (installArtifacts home (installArtifacts home fs system_info t1) system_info t2).env_file
      = (installArtifacts home fs system_info t1).env_file ∧
    (installArtifacts home fs system_info t1).env_file.isSome = true := by
  rcases fs with ⟨cfg, man, envf⟩
  cases cfg <;> cases envf <;>
    simp [installArtifacts, setupDirectoriesStep, createDockerComposeStep,
          createEnvFileStep, create_env_file]

/-- C8 (counterexample): with the base directory present but the `docker`
executable absent, the container-table subprocess invocation raises
`FileNotFoundError` and the status command exits 1, refuting "always
exits 0". -/
theorem c8_counterexample :
    statusCommand true
      { docker_ps := none, nvidia_smi := some 0, vllm_probe := false,
        anythingllm_probe := false }
      = (1, ["FileNotFoundError"]) ∧ (1 : Nat) ≠ 0 :=
  ⟨rfl, by decide⟩

/-- C8 (amended): when the base directory exists and the two table
executables (`docker`, `nvidia-smi`) are present, the status command exits
0 for every pattern of health-probe outcomes, reporting each failed probe
as that service not responding; a missing table executable instead raises
and exits non-zero. -/
theorem c8_theorem (d n : Int) (v a : Bool) :
    statusCommand true
      { docker_ps := some d, nvidia_smi := some n, vllm_probe := v, anythingllm_probe := a }
      = (0, ["=== Container Status ===", "=== GPU Usage ===", "=== Service Health ===",
             if v then "✅ vLLM: Running" else "❌ vLLM: Not responding",
             if a then "✅ AnythingLLM: Running" else "❌ AnythingLLM: Not responding"]) :=
  rfl

/-- In unattended mode every step of the loop is attempted, whatever each
step's outcome, because the continue-anyway confirmation always takes its
default answer `True`. -/
theorem runStepsLoop_auto_length (outcomes : List StepOutcome) (inputs : List String) :
    (runStepsLoop true outcomes inputs).1 = outcomes.length := by
  induction outcomes generalizing inputs with
  | nil => rfl
  | cons o rest ih => cases o <;> simp [runStepsLoop, confirm, ih]

/-- C9: in unattended mode every confirmation resolves to its default
answer whatever input would have been supplied, and the runner attempts
every step of the sequence for every pattern of step outcomes (failures
and raised exceptions included). -/
theorem c9_theorem (outcomes : List StepOutcome) (inputs : List String)
    (d : Bool) (inp : String) :
    (runFullInstall true outcomes inputs).1 = outcomes.length ∧ confirm true d inp = d :=
  ⟨runStepsLoop_auto_length outcomes inputs, rfl⟩

/-- C10: the WSL precheck returns true exactly when `/proc/version` exists
and its lowercased content contains "microsoft" (false when the file is
absent); the "wsl" marker check is evaluated on a second read of the
already-exhausted handle, which always yields the empty string, so it
never succeeds. -/
theorem c10_theorem (pv : Option Str) :
    is_wsl pv = (match pv with
      | none => false
      | some content => isInfix "microsoft".toList (toLowerStr content)) ∧
    ∀ content : Str,
      isInfix "wsl".toList
        (toLowerStr ((FileHandle.readAll (FileHandle.readAll ⟨content, 0⟩).2).1)) = false := by
  constructor
  · cases pv with
    | none => rfl
    | some content =>
      simp [is_wsl, FileHandle.readAll, List.drop_length, isInfix, toLowerStr]
  · intro content
    simp [FileHandle.readAll, List.drop_length, isInfix, toLowerStr]

end Deploy
